import Mathlib

/-!
# Verification of the SSD Document Verifier (Agent 2)

Shallow embedding of `src/finetuning/agent_2_document_verifier/graph_rag.py`
(class `DocumentVerifierRAG`) and of the status derivation in
`src/finetuning/agent_2_document_verifier/run_verification.py`
(`DocumentVerifier.verify_document`).

Modelling conventions:

* Python floats are modelled as `ℚ` (the scoring arithmetic) and, for the
  cosine-similarity formula itself, as `ℝ`.
* The external embedding model (`SentenceTransformer.encode`, a third-party
  library, not part of this repository) composed with the inline cosine
  similarity `np.dot(u, v) / (norm(u) * norm(v))` is abstracted as a
  function `sim : String → String → ℚ` giving the similarity of the
  embeddings of two strings.  The argument order is preserved from the
  source: every call site computes `sim src ssd` with the source-side
  string first, exactly as every line of the Python computes
  `np.dot(src_emb, ssd_emb) / ...`.
* The cosine formula itself is embedded separately over `ℝ` vectors
  (`dotProduct`, `l2norm`, `cosineSim`) for the well-definedness claim.
* Python lists are Lean lists; Python dicts with string keys are
  association lists; a loop that appends under a condition is a
  `List.filter` / `List.countP` over the same traversal order.
-/

namespace GraphRag

/-! ## String helpers

Python uses `needle in haystack` (substring test), `str.lower()`,
`str.strip()` and `str.split('.')`.  These are embedded as structurally
recursive functions over `List Char` so that they evaluate by `decide`.
`Char.isWhitespace` covers the blank, tab, CR and LF characters; Python
`str.strip()` in addition strips `\x0b`/`\x0c` and Unicode spaces, and
Python `str.lower()` lowers non-ASCII letters, which none of the fixed
keyword vocabularies contain. -/

/-- `startsWithL needle haystack` is true when `needle` is an initial
segment of `haystack` (helper for the Python substring test). -/
def startsWithL : List Char → List Char → Bool
  | [], _ => true
  | _ :: _, [] => false
  | a :: as, b :: bs => a == b && startsWithL as bs

/-- `hasSubstr needle haystack`: Python `needle in haystack` on strings. -/
def hasSubstr (needle : List Char) : List Char → Bool
  | [] => needle.isEmpty
  | b :: bs => startsWithL needle (b :: bs) || hasSubstr needle bs

/-- Python `str.lower()` on the character list (ASCII letters). -/
def lowerChars (cs : List Char) : List Char := cs.map Char.toLower

/-- Python `str.lower()`. -/
def strLower (s : String) : String := String.mk (lowerChars s.data)

/-- Python `needle in haystack` for strings. -/
def strContains (haystack needle : String) : Bool :=
  hasSubstr needle.data haystack.data

/-- Python `text.split('.')`: split on every dot, keeping empty pieces. -/
def splitOnDot : List Char → List (List Char)
  | [] => [[]]
  | c :: rest =>
    match splitOnDot rest with
    | [] => [[c]]
    | g :: gs => if c == '.' then [] :: g :: gs else (c :: g) :: gs

/-- Python `str.strip()`: drop leading and trailing whitespace. -/
def stripChars (cs : List Char) : List Char :=
  ((cs.dropWhile Char.isWhitespace).reverse.dropWhile Char.isWhitespace).reverse

/-! ## Extraction Engine: assumption / constraint classification

Embeds `DocumentVerifierRAG.analyze_source_document`, lines 107-121 of
`graph_rag.py`: the source text is split into sentences on `'.'`, each
sentence is stripped, a sentence containing an assumption keyword (in its
lowercase form) is an assumption, and a sentence containing a constraint
keyword is a constraint unless it is already in the assumptions list.
The regex-based equation and parameter extraction of the same function is
not needed by any claim about this classification and is not embedded
here; the Fidelity Scorer below receives those fields as inputs. -/

/-- `self.assumption_keywords` from `DocumentVerifierRAG.__init__`. -/
def assumption_keywords : List String :=
  ["assume", "assuming", "assumption", "ignore", "negligible",
   "ideal", "constant", "uniform", "steady", "homogeneous",
   "consider", "treat as", "approximate", "neglect"]

/-- `self.constraint_keywords` from `DocumentVerifierRAG.__init__`. -/
def constraint_keywords : List String :=
  ["must", "should", "assume", "given", "where", "such that",
   "constraint", "condition", "requirement", "limit", "range",
   "greater than", "less than", "between", "when", "if"]

/-- `any(keyword in sentence.lower() for keyword in kws)`. -/
def sentenceHasKeyword (kws : List String) (sentence : String) : Bool :=
  kws.any (fun k => hasSubstr k.data (lowerChars sentence.data))

/-- The stripped sentences of the source text
(`sentences = source_text.split('.')`, each `sentence.strip()`). -/
def sentencesOf (sourceText : String) : List String :=
  (splitOnDot sourceText.data).map (fun cs => String.mk (stripChars cs))

/-- Lines 107-113: sentences whose lowercase form contains an assumption
keyword, in order of appearance. -/
def extractAssumptions (sourceText : String) : List String :=
  (sentencesOf sourceText).filter (sentenceHasKeyword assumption_keywords)

/-- Lines 115-121: sentences whose lowercase form contains a constraint
keyword and that are not already in the assumptions list
(`if sentence not in assumptions`), in order of appearance. -/
def extractConstraints (sourceText : String) : List String :=
  (sentencesOf sourceText).filter
    (fun s => sentenceHasKeyword constraint_keywords s &&
      !((extractAssumptions sourceText).contains s))

/-! ## Fidelity Scorer

Embeds `verify_ssd_fidelity` and its four matching routines
(`_verify_equations`, `_verify_parameters`, `_verify_assumptions`,
`_verify_constraints`), lines 170-400 of `graph_rag.py`.  The parameter
`sim src ssd` stands for the cosine similarity of the embeddings of the
two strings (source-side string first, as at every call site in the
source).  A Python loop `max_sim = 0; for c in cands: max_sim =
max(max_sim, sim(s, c))` becomes a left fold starting at `0`. -/

/-- Source-side matching loop: the maximum similarity of the source
string `s` against every candidate string (lines 261-265, 354-358,
388-392). -/
def maxSimTo (sim : String → String → ℚ) (cands : List String) (s : String) : ℚ :=
  cands.foldl (fun m c => max m (sim s c)) 0

/-- Candidate-side matching loop of `_verify_equations`: the maximum
similarity of every source string against the candidate string `c`
(lines 274-278; the argument order `sim src ssd` is kept). -/
def maxSimFrom (sim : String → String → ℚ) (srcs : List String) (c : String) : ℚ :=
  srcs.foldl (fun m s => max m (sim s c)) 0

/-- `_verify_equations` (lines 237-290): returns
`(score, missing, extra)`.  Degenerate cases: both sides empty gives
`(1.0, [], [])`; an empty source side with a non-empty candidate side
gives `(0.5, [], all candidate equations as extra)`.  Otherwise a source
equation whose best similarity is not above `0.7` is missing, a candidate
equation whose best similarity is not above `0.7` is extra, and the score
is the mean of precision and recall. -/
def verify_equations (sim : String → String → ℚ)
    (source_equations ssd_equations : List String) : ℚ × List String × List String :=
  if source_equations.isEmpty && ssd_equations.isEmpty then (1, [], [])
  else if source_equations.isEmpty then
    (0.5, [], ssd_equations.map (fun eq => "Equation: " ++ eq))
  else
    let missing := (source_equations.filter
      (fun s => !(decide (maxSimTo sim ssd_equations s > 0.7)))).map
        (fun s => "Equation: " ++ s)
    let matchedSource := source_equations.countP
      (fun s => decide (maxSimTo sim ssd_equations s > 0.7))
    let extra := (ssd_equations.filter
      (fun c => !(decide (maxSimFrom sim source_equations c > 0.7)))).map
        (fun c => "Equation: " ++ c)
    let matchedSsd := ssd_equations.countP
      (fun c => decide (maxSimFrom sim source_equations c > 0.7))
    let precision : ℚ :=
      if ssd_equations.isEmpty then 0 else (matchedSsd : ℚ) / ssd_equations.length
    let recallScore : ℚ :=
      if source_equations.isEmpty then 0 else (matchedSource : ℚ) / source_equations.length
    ((precision + recallScore) / 2, missing, extra)

/-- `_verify_parameters` (lines 292-332): purely lexical matching.
A source parameter is missing when its lowercase form is neither an
element of the lowercased candidate list nor a substring of any candidate
parameter; a candidate parameter is extra when its lowercase form is
neither an element of the lowercased source list nor a substring of the
lowercased source text.  Base score: with no source parameters, `1.0`
when the candidate list is empty and `0.8` otherwise; else the fraction
of source parameters exactly present (lowercase) in the candidate list.
Any extras multiply the score by `0.8`. -/
def verify_parameters (source_parameters ssd_parameters : List String)
    (source_text : String) : ℚ × List String × List String :=
  let source_params_lower := source_parameters.map strLower
  let ssd_params_lower := ssd_parameters.map strLower
  let missing := (source_parameters.filter
    (fun p => !(ssd_params_lower.contains (strLower p)) &&
      !(ssd_parameters.any (fun sp => strContains (strLower sp) (strLower p))))).map
      (fun p => "Parameter: " ++ p)
  let extra := (ssd_parameters.filter
    (fun p => !(source_params_lower.contains (strLower p)) &&
      !(strContains (strLower source_text) (strLower p)))).map
      (fun p => "Parameter: " ++ p)
  let score0 : ℚ :=
    if source_parameters.isEmpty then (if ssd_parameters.isEmpty then 1 else 0.8)
    else (source_parameters.countP
      (fun p => ssd_params_lower.contains (strLower p)) : ℚ) / source_parameters.length
  let score := if extra.isEmpty then score0 else score0 * 0.8
  (score, missing, extra)

/-- `_verify_assumptions` (lines 334-366): returns `(score, missing)`.
Empty source side gives `(1.0, [])`; empty candidate side gives
`(0.0, every source assumption missing)`; otherwise a source assumption
is covered when its best similarity exceeds `0.6`, and the score is the
covered fraction. -/
def verify_assumptions (sim : String → String → ℚ)
    (source_assumptions ssd_assumptions : List String) : ℚ × List String :=
  if source_assumptions.isEmpty then (1, [])
  else if ssd_assumptions.isEmpty then
    (0, source_assumptions.map (fun a => "Assumption: " ++ a))
  else
    let missing := (source_assumptions.filter
      (fun s => !(decide (maxSimTo sim ssd_assumptions s > 0.6)))).map
        (fun s => "Assumption: " ++ s)
    let matched := source_assumptions.countP
      (fun s => decide (maxSimTo sim ssd_assumptions s > 0.6))
    let score : ℚ :=
      if source_assumptions.isEmpty then 1
      else (matched : ℚ) / source_assumptions.length
    (score, missing)

/-- `_verify_constraints` (lines 368-400): like assumptions but an empty
candidate side gives score `0.5`. -/
def verify_constraints (sim : String → String → ℚ)
    (source_constraints ssd_constraints : List String) : ℚ × List String :=
  if source_constraints.isEmpty then (1, [])
  else if ssd_constraints.isEmpty then
    (0.5, source_constraints.map (fun c => "Constraint: " ++ c))
  else
    let missing := (source_constraints.filter
      (fun s => !(decide (maxSimTo sim ssd_constraints s > 0.6)))).map
        (fun s => "Constraint: " ++ s)
    let matched := source_constraints.countP
      (fun s => decide (maxSimTo sim ssd_constraints s > 0.6))
    let score : ℚ :=
      if source_constraints.isEmpty then 1
      else (matched : ℚ) / source_constraints.length
    (score, missing)

/-- `DocumentAnalysis` (dataclass, lines 22-30); the scorer consumes the
four element lists.  The regex-extracted equation and parameter fields
appear here as data produced by `analyze_source_document`. -/
structure DocumentAnalysis where
  extracted_equations : List String
  extracted_parameters : List String
  extracted_assumptions : List String
  extracted_constraints : List String
deriving DecidableEq

/-- `VerificationResult` (dataclass, lines 32-41). -/
structure VerificationResult where
  equation_accuracy : ℚ
  parameter_completeness : ℚ
  assumption_completeness : ℚ
  constraint_accuracy : ℚ
  missing_elements : List String
  extra_elements : List String
  overall_fidelity : ℚ
deriving DecidableEq

/-- Lines 194-235 of `verify_ssd_fidelity`: the four matching routines
and the weighted aggregation, applied to the already-extracted SSD
fields. -/
def verifySsdFidelityCore (sim : String → String → ℚ)
    (source_analysis : DocumentAnalysis) (source_text : String)
    (ssd_equations ssd_parameters ssd_assumptions ssd_constraints : List String) :
    VerificationResult :=
  let eqRes := verify_equations sim source_analysis.extracted_equations ssd_equations
  let paramRes := verify_parameters source_analysis.extracted_parameters
    ssd_parameters source_text
  let assumptionRes := verify_assumptions sim source_analysis.extracted_assumptions
    ssd_assumptions
  let constraintRes := verify_constraints sim source_analysis.extracted_constraints
    ssd_constraints
  let overall := eqRes.1 * 0.4 + paramRes.1 * 0.3 +
    assumptionRes.1 * 0.2 + constraintRes.1 * 0.1
  { equation_accuracy := eqRes.1
    parameter_completeness := paramRes.1
    assumption_completeness := assumptionRes.1
    constraint_accuracy := constraintRes.1
    missing_elements := eqRes.2.1 ++ paramRes.2.1 ++ assumptionRes.2 ++ constraintRes.2
    extra_elements := eqRes.2.2 ++ paramRes.2.2
    overall_fidelity := overall }

/-! ## Candidate document extraction

Embeds lines 188-192 of `verify_ssd_fidelity`:

```
ssd_equations = [eq.get('expression', '') for eq in ssd_document.get('equations', [])]
ssd_parameters = [p.get('symbol', '') for p in ssd_document.get('parameters', [])]
ssd_assumptions = ssd_document.get('assumptions', [])
ssd_constraints = ssd_document.get('constraints', [])
```

The candidate document is a dynamically-typed JSON-like value.  A missing
key defaults to the empty list via `dict.get`.  A value of the wrong
shape makes the Python pipeline raise (a non-iterable value raises
`TypeError` in the comprehension itself; a list entry without `.get`
raises `AttributeError`; a non-string text raises inside the downstream
embedding call), modelled as `Except.error`. -/

/-- A JSON-like Python value. -/
inductive JsonVal where
  | str : String → JsonVal
  | num : Int → JsonVal
  | arr : List JsonVal → JsonVal
  | obj : List (String × JsonVal) → JsonVal

/-- The candidate SSD document: a dict with string keys. -/
def SsdDoc := List (String × JsonVal)

/-- Python `d.get(k, default)` on an association list (first match). -/
def dictGet (d : List (String × JsonVal)) (k : String) (dflt : JsonVal) : JsonVal :=
  match d with
  | [] => dflt
  | (k', v) :: rest => if k' == k then v else dictGet rest k dflt

/-- Python `entry.get(k, '')` where the result must be usable as a
string downstream. -/
def strFieldOf (fields : List (String × JsonVal)) (k : String) : Except String String :=
  match dictGet fields k (.str "") with
  | .str s => .ok s
  | _ => .error "field value is not a string"

/-- The comprehension `[eq.get(k, '') for eq in v]`: `v` must be a list
of dict entries, each yielding a string. -/
def exprListOf (v : JsonVal) (k : String) : Except String (List String) :=
  match v with
  | .arr xs => xs.mapM (fun x => match x with
      | .obj fields => strFieldOf fields k
      | _ => .error "entry is not an object")
  | _ => .error "value is not a list of objects"

/-- A field expected to be a plain list of strings. -/
def strListOf (v : JsonVal) : Except String (List String) :=
  match v with
  | .arr xs => xs.mapM (fun x => match x with
      | .str s => .ok s
      | _ => .error "entry is not a string")
  | _ => .error "value is not a list of strings"

/-- Lines 188-192: extract the four SSD collections, defaulting each
missing key to the empty list. -/
def extractSsdFields (ssd_document : SsdDoc) :
    Except String (List String × List String × List String × List String) := do
  let eqs ← exprListOf (dictGet ssd_document "equations" (.arr [])) "expression"
  let ps ← exprListOf (dictGet ssd_document "parameters" (.arr [])) "symbol"
  let asms ← strListOf (dictGet ssd_document "assumptions" (.arr []))
  let cs ← strListOf (dictGet ssd_document "constraints" (.arr []))
  .ok (eqs, ps, asms, cs)

/-- `verify_ssd_fidelity` (lines 170-235): extract the SSD fields, then
run the four matching routines and aggregate.  The analysis of the
source document (line 186) is passed in as `source_analysis`. -/
def verify_ssd_fidelity (sim : String → String → ℚ)
    (source_analysis : DocumentAnalysis) (source_text : String)
    (ssd_document : SsdDoc) : Except String VerificationResult := do
  let (ssd_equations, ssd_parameters, ssd_assumptions, ssd_constraints)
    ← extractSsdFields ssd_document
  .ok (verifySsdFidelityCore sim source_analysis source_text
    ssd_equations ssd_parameters ssd_assumptions ssd_constraints)

/-! ## Status derivation

Embeds lines 155-157 of `run_verification.py`:
`"high_fidelity" if f >= 0.9 else ("acceptable" if f >= 0.7 else
"needs_review")`. -/

/-- The discrete status label derived from `overall_fidelity`. -/
def overall_status (overall_fidelity : ℚ) : String :=
  if overall_fidelity ≥ 0.9 then "high_fidelity"
  else if overall_fidelity ≥ 0.7 then "acceptable"
  else "needs_review"

/-! ## The cosine-similarity formula

Embeds the inline expression
`np.dot(src_emb, ssd_emb) / (np.linalg.norm(src_emb) * np.linalg.norm(ssd_emb))`
appearing at lines 264, 277, 357 and 391 of `graph_rag.py`, with float
vectors modelled as `List ℝ`.  There is no guard against a zero
denominator in the source. -/

/-- `np.dot(u, v)` on equal-length float vectors. -/
def dotProduct (u v : List ℝ) : ℝ := (List.zipWith (fun a b => a * b) u v).sum

/-- `np.linalg.norm(u)`: the Euclidean norm. -/
noncomputable def l2norm (u : List ℝ) : ℝ := Real.sqrt (dotProduct u u)

/-- The cosine similarity exactly as written in the source: a division
by the product of the two norms, with no zero guard. -/
noncomputable def cosineSim (u v : List ℝ) : ℝ :=
  dotProduct u v / (l2norm u * l2norm v)

/-! ## Helper lemmas -/

/-- A key with no entry in the dict. -/
def hasKey (d : SsdDoc) (k : String) : Bool := d.any (fun p => p.1 == k)

theorem dictGet_of_not_hasKey (d : SsdDoc) (k : String) (dflt : JsonVal)
    (h : hasKey d k = false) : dictGet d k dflt = dflt := by
  induction d with
  | nil => rfl
  | cons p rest ih =>
    simp only [hasKey, List.any_cons, Bool.or_eq_false_iff] at h
    simp only [dictGet, h.1, if_neg]
    exact ih (by simp [hasKey, h.2])

theorem dictGet_cons_self (d : SsdDoc) (k : String) (v dflt : JsonVal) :
    dictGet ((k, v) :: d) k dflt = v := by
  simp [dictGet]

theorem dictGet_cons_ne (d : SsdDoc) (k k' : String) (v dflt : JsonVal)
    (h : (k == k') = false) :
    dictGet ((k, v) :: d) k' dflt = dictGet d k' dflt := by
  simp [dictGet, h]

theorem dotProduct_self_nonneg (u : List ℝ) : 0 ≤ dotProduct u u := by
  induction u with
  | nil => simp [dotProduct]
  | cons a t ih =>
    simp only [dotProduct, List.zipWith_cons_cons, List.sum_cons] at *
    have := mul_self_nonneg a
    linarith

theorem dotProduct_self_pos (u : List ℝ) (h : ∃ x ∈ u, x ≠ 0) :
    0 < dotProduct u u := by
  induction u with
  | nil => simp at h
  | cons a t ih =>
    simp only [dotProduct, List.zipWith_cons_cons, List.sum_cons] at *
    rcases h with ⟨x, hmem, hxne⟩
    rcases List.mem_cons.mp hmem with hx | hx
    · have ha : 0 < a * a := by
        have := mul_self_nonneg a
        rcases lt_or_eq_of_le this with hlt | heq
        · exact hlt
        · exact absurd (by nlinarith : a = 0) (hx ▸ hxne)
      have := dotProduct_self_nonneg t
      simp only [dotProduct] at this
      linarith
    · have := ih ⟨x, hx, hxne⟩
      have := mul_self_nonneg a
      linarith

end GraphRag

open GraphRag

/-- Claim C4: for every non-empty source assumption list paired with an
empty candidate assumption list, assumption matching returns score `0.0`
and a missing list with exactly one entry per source assumption. -/
theorem assumptions_empty_candidate_floor (sim : String → String → ℚ)
    (source_assumptions : List String) (h : source_assumptions ≠ []) :
    verify_assumptions sim source_assumptions [] =
      (0, source_assumptions.map (fun a => "Assumption: " ++ a)) := by
  have hne : source_assumptions.isEmpty = false := by
    simpa [List.isEmpty_iff] using h
  simp [verify_assumptions, hne]

/-- Witness for C4 at a concrete input. -/
theorem assumptions_empty_candidate_floor_witness :
    (["Assume no drag"] : List String) ≠ [] ∧
    verify_assumptions (fun _ _ => 0) ["Assume no drag"] [] =
      (0, (["Assume no drag"] : List String).map (fun a => "Assumption: " ++ a)) :=
  ⟨by decide, assumptions_empty_candidate_floor (fun _ _ => 0) ["Assume no drag"] (by decide)⟩

/-- Claim C7: the assumptions list and the constraints list extracted
from a source text are disjoint; a sentence classified as an assumption
never appears in the constraints list. -/
theorem assumptions_constraints_disjoint (sourceText : String) (s : String)
    (h : s ∈ extractAssumptions sourceText) :
    s ∉ extractConstraints sourceText := by
  intro hc
  simp only [extractConstraints, List.mem_filter, Bool.and_eq_true,
    Bool.not_eq_true'] at hc
  exact absurd h (by simpa using hc.2.2)

/-- Witness for C7 at a concrete source text. -/
theorem assumptions_constraints_disjoint_witness :
    "Assume no drag" ∈ extractAssumptions "Assume no drag. The speed must be positive." ∧
    "Assume no drag" ∉ extractConstraints "Assume no drag. The speed must be positive." :=
  ⟨by decide, assumptions_constraints_disjoint _ _ (by decide)⟩

/-- Claim C8: the derived status label is `high_fidelity` exactly when
`overall_fidelity` is at least `0.9`, `acceptable` exactly when it is at
least `0.7` and below `0.9`, and `needs_review` exactly when it is below
`0.7`. -/
theorem overall_status_thresholds (f : ℚ) :
    (overall_status f = "high_fidelity" ↔ 0.9 ≤ f) ∧
    (overall_status f = "acceptable" ↔ 0.7 ≤ f ∧ f < 0.9) ∧
    (overall_status f = "needs_review" ↔ f < 0.7) := by
  unfold overall_status
  have hab : ("acceptable" : String) ≠ "high_fidelity" := by decide
  have hnb : ("needs_review" : String) ≠ "high_fidelity" := by decide
  have hna : ("needs_review" : String) ≠ "acceptable" := by decide
  have hba : ("high_fidelity" : String) ≠ "acceptable" := by decide
  have hbn : ("high_fidelity" : String) ≠ "needs_review" := by decide
  have han : ("acceptable" : String) ≠ "needs_review" := by decide
  split_ifs with h1 h2
  · refine ⟨⟨fun _ => h1, fun _ => rfl⟩, ⟨fun hs => absurd hs hba, ?_⟩,
      ⟨fun hs => absurd hs hbn, ?_⟩⟩
    · rintro ⟨-, hlt⟩; exact absurd h1 (not_le.mpr hlt)
    · intro hlt; exact absurd h1 (not_le.mpr (by linarith))
  · refine ⟨⟨fun hs => absurd hs hab, fun hge => absurd hge h1⟩,
      ⟨fun _ => ⟨h2, lt_of_not_le h1⟩, fun _ => rfl⟩,
      ⟨fun hs => absurd hs han, ?_⟩⟩
    intro hlt; exact absurd h2 (not_le.mpr hlt)
  · refine ⟨⟨fun hs => absurd hs hnb, fun hge => absurd hge h1⟩,
      ⟨fun hs => absurd hs hna, ?_⟩, ⟨fun _ => lt_of_not_le h2, fun _ => rfl⟩⟩
    rintro ⟨hge, -⟩; exact absurd hge h2

/-- Claim C9: with a deterministic embedding (two runs of the similarity
function agree on every pair of strings), the Fidelity Scorer produces
identical results in every field. -/
theorem fidelity_scorer_deterministic (sim1 sim2 : String → String → ℚ)
    (source_analysis : DocumentAnalysis) (source_text : String)
    (ssd_document : SsdDoc) (h : ∀ a b, sim1 a b = sim2 a b) :
    verify_ssd_fidelity sim1 source_analysis source_text ssd_document =
      verify_ssd_fidelity sim2 source_analysis source_text ssd_document := by
  have hs : sim1 = sim2 := funext fun a => funext fun b => h a b
  rw [hs]

/-- Witness for C9 at a concrete input. -/
theorem fidelity_scorer_deterministic_witness :
    verify_ssd_fidelity (fun _ _ => 0) ⟨[], [], [], []⟩ "" [] =
      verify_ssd_fidelity (fun _ _ => 0) ⟨[], [], [], []⟩ "" [] :=
  fidelity_scorer_deterministic (fun _ _ => 0) (fun _ _ => 0) ⟨[], [], [], []⟩ "" []
    (fun _ _ => rfl)

/-- Claim C10: the cosine similarity used by equation, assumption and
constraint matching divides by the product of the two vector norms with
no zero guard; when both embedding vectors are nonzero the denominator is
positive, so the division is well-defined and multiplying back by the
denominator recovers the dot product. -/
theorem cosine_denominator_nonzero (u v : List ℝ)
    (hu : ∃ x ∈ u, x ≠ 0) (hv : ∃ y ∈ v, y ≠ 0) :
    0 < l2norm u * l2norm v ∧
      cosineSim u v * (l2norm u * l2norm v) = dotProduct u v := by
  have h1 : 0 < l2norm u := Real.sqrt_pos.mpr (dotProduct_self_pos u hu)
  have h2 : 0 < l2norm v := Real.sqrt_pos.mpr (dotProduct_self_pos v hv)
  have hpos : 0 < l2norm u * l2norm v := mul_pos h1 h2
  exact ⟨hpos, div_mul_cancel₀ _ (ne_of_gt hpos)⟩

/-- Witness for C10 at concrete one-dimensional vectors. -/
theorem cosine_denominator_nonzero_witness :
    (∃ x ∈ ([1] : List ℝ), x ≠ 0) ∧
    (0 < l2norm [1] * l2norm [1] ∧
      cosineSim [1] [1] * (l2norm [1] * l2norm [1]) = dotProduct [1] [1]) :=
  ⟨⟨1, by simp, one_ne_zero⟩,
    cosine_denominator_nonzero [1] [1] ⟨1, by simp, one_ne_zero⟩ ⟨1, by simp, one_ne_zero⟩⟩

/-- Claim C1 counterexample: with one source equation and no candidate
equations the equation score is not `0.5` and the missing list is not
empty. -/
theorem equations_empty_candidate_not_half :
    (verify_equations (fun _ _ => 0) ["x(t) = v*t"] []).1 ≠ 0.5 ∧
    (verify_equations (fun _ _ => 0) ["x(t) = v*t"] []).2.1 ≠ [] := by
  with_unfolding_all decide

/-- Claim C1 as amended: with a non-empty source equation set and an
empty candidate equation list, the equation score is `0.0` (precision and
recall are both zero), every source equation is recorded missing, and no
extra elements are recorded. -/
theorem equations_empty_candidate_score_zero (sim : String → String → ℚ)
    (source_equations : List String) (h : source_equations ≠ []) :
    verify_equations sim source_equations [] =
      (0, source_equations.map (fun s => "Equation: " ++ s), []) := by
  have hne : source_equations.isEmpty = false := by
    simpa [List.isEmpty_iff] using h
  have hd : (decide ((0.7:ℚ) < 0)) = false := by with_unfolding_all decide
  unfold verify_equations
  simp [hne, maxSimTo, hd, List.filter_true]

/-- Witness for the amended C1 at a concrete input. -/
theorem equations_empty_candidate_score_zero_witness :
    (["x(t) = v*t"] : List String) ≠ [] ∧
    verify_equations (fun _ _ => 0) ["x(t) = v*t"] [] =
      (0, (["x(t) = v*t"] : List String).map (fun s => "Equation: " ++ s), []) :=
  ⟨by decide,
    equations_empty_candidate_score_zero (fun _ _ => 0) ["x(t) = v*t"] (by decide)⟩

/-- Claim C2 counterexample: with no source parameters and one candidate
parameter that is flagged extra, the parameter score is `0.8 * 0.8`, not
`0.8`. -/
theorem parameters_extra_penalty_when_source_empty :
    (verify_parameters [] ["q"] "").2.2 ≠ [] ∧
    (verify_parameters [] ["q"] "").1 ≠ 0.8 ∧
    (verify_parameters [] ["q"] "").1 = 0.8 * 0.8 := by
  with_unfolding_all decide

/-- Claim C2 as amended: with an empty source parameter set the score is
`1.0` when the candidate list is empty, `0.8` when it is non-empty and no
candidate parameter was flagged extra, and `0.8 * 0.8` when some
candidate parameter was flagged extra. -/
theorem parameters_empty_source_score (ssd_parameters : List String)
    (source_text : String) :
    (verify_parameters [] ssd_parameters source_text).1 =
      (if ssd_parameters.isEmpty then 1
       else if (verify_parameters [] ssd_parameters source_text).2.2.isEmpty
       then 0.8 else 0.8 * 0.8) := by
  unfold verify_parameters
  cases ssd_parameters with
  | nil => simp
  | cons p ps =>
    simp only [List.isEmpty_cons, List.map_nil, List.contains_nil,
      Bool.false_eq_true, not_false_eq_true, List.isEmpty_nil, if_true,
      Bool.not_false, Bool.true_and, if_false]

/-- Claim C3 counterexample: a candidate document whose `equations` key
holds a number instead of a list makes the scorer raise an error instead
of treating the field as an empty collection. -/
theorem malformed_equations_field_errors :
    verify_ssd_fidelity (fun _ _ => 0) ⟨[], [], [], []⟩ ""
      [("equations", JsonVal.num 42)] =
      .error "value is not a list of objects" := rfl

/-- Claim C3 as amended: for every candidate document, each one of the
keys `equations`, `parameters`, `assumptions`, `constraints` that is
missing is treated as an empty collection — the scorer behaves exactly as
on the document with that key explicitly mapped to an empty list — and a
document missing all four keys is scored with every field empty, without
raising an error; a malformed value for one of these keys raises an
error instead. -/
theorem missing_field_scored_as_empty :
    (∀ (sim : String → String → ℚ) (source_analysis : DocumentAnalysis)
        (source_text : String) (doc : SsdDoc) (k : String),
      k ∈ (["equations", "parameters", "assumptions", "constraints"] : List String) →
      hasKey doc k = false →
      verify_ssd_fidelity sim source_analysis source_text doc =
        verify_ssd_fidelity sim source_analysis source_text
          ((k, JsonVal.arr []) :: doc)) ∧
    (∀ (sim : String → String → ℚ) (source_analysis : DocumentAnalysis)
        (source_text : String) (doc : SsdDoc),
      (∀ k ∈ (["equations", "parameters", "assumptions", "constraints"] : List String),
        hasKey doc k = false) →
      verify_ssd_fidelity sim source_analysis source_text doc =
        .ok (verifySsdFidelityCore sim source_analysis source_text [] [] [] [])) := by
  constructor
  · intro sim source_analysis source_text doc k hk hmiss
    simp only [List.mem_cons, List.not_mem_nil, or_false] at hk
    unfold verify_ssd_fidelity extractSsdFields
    rcases hk with rfl | rfl | rfl | rfl
    · rw [dictGet_cons_self,
        dictGet_cons_ne doc "equations" "parameters" _ _ (by decide),
        dictGet_cons_ne doc "equations" "assumptions" _ _ (by decide),
        dictGet_cons_ne doc "equations" "constraints" _ _ (by decide),
        dictGet_of_not_hasKey doc "equations" _ hmiss]
    · rw [dictGet_cons_self,
        dictGet_cons_ne doc "parameters" "equations" _ _ (by decide),
        dictGet_cons_ne doc "parameters" "assumptions" _ _ (by decide),
        dictGet_cons_ne doc "parameters" "constraints" _ _ (by decide),
        dictGet_of_not_hasKey doc "parameters" _ hmiss]
    · rw [dictGet_cons_self,
        dictGet_cons_ne doc "assumptions" "equations" _ _ (by decide),
        dictGet_cons_ne doc "assumptions" "parameters" _ _ (by decide),
        dictGet_cons_ne doc "assumptions" "constraints" _ _ (by decide),
        dictGet_of_not_hasKey doc "assumptions" _ hmiss]
    · rw [dictGet_cons_self,
        dictGet_cons_ne doc "constraints" "equations" _ _ (by decide),
        dictGet_cons_ne doc "constraints" "parameters" _ _ (by decide),
        dictGet_cons_ne doc "constraints" "assumptions" _ _ (by decide),
        dictGet_of_not_hasKey doc "constraints" _ hmiss]
  · intro sim source_analysis source_text doc hall
    unfold verify_ssd_fidelity extractSsdFields
    rw [dictGet_of_not_hasKey doc "equations" _ (hall "equations" (by decide)),
      dictGet_of_not_hasKey doc "parameters" _ (hall "parameters" (by decide)),
      dictGet_of_not_hasKey doc "assumptions" _ (hall "assumptions" (by decide)),
      dictGet_of_not_hasKey doc "constraints" _ (hall "constraints" (by decide))]
    rfl

/-- Witness for the amended C3: a document with a well-formed
`parameters` field and a missing `equations` key is scored exactly as if
`equations` were an empty list, and a document with none of the four
keys yields a verdict with all fields empty. -/
theorem missing_field_scored_as_empty_witness :
    ("equations" ∈ (["equations", "parameters", "assumptions", "constraints"] : List String) ∧
     hasKey [("parameters", JsonVal.arr [JsonVal.obj [("symbol", JsonVal.str "v0")]])]
       "equations" = false ∧
     verify_ssd_fidelity (fun _ _ => 0) ⟨[], [], [], []⟩ ""
         [("parameters", JsonVal.arr [JsonVal.obj [("symbol", JsonVal.str "v0")]])] =
       verify_ssd_fidelity (fun _ _ => 0) ⟨[], [], [], []⟩ ""
         (("equations", JsonVal.arr []) ::
           [("parameters", JsonVal.arr [JsonVal.obj [("symbol", JsonVal.str "v0")]])])) ∧
    ((∀ k ∈ (["equations", "parameters", "assumptions", "constraints"] : List String),
        hasKey [("domain", JsonVal.str "Physics")] k = false) ∧
     verify_ssd_fidelity (fun _ _ => 0) ⟨[], [], [], []⟩ ""
         [("domain", JsonVal.str "Physics")] =
       .ok (verifySsdFidelityCore (fun _ _ => 0) ⟨[], [], [], []⟩ "" [] [] [] [])) :=
  ⟨⟨by decide, by decide,
    missing_field_scored_as_empty.1 (fun _ _ => 0) ⟨[], [], [], []⟩ ""
      [("parameters", JsonVal.arr [JsonVal.obj [("symbol", JsonVal.str "v0")]])]
      "equations" (by decide) (by decide)⟩,
   ⟨by decide,
    missing_field_scored_as_empty.2 (fun _ _ => 0) ⟨[], [], [], []⟩ ""
      [("domain", JsonVal.str "Physics")] (by decide)⟩⟩

/-- Claim C5: `overall_fidelity` is always the weighted sum
`0.4 * equations + 0.3 * parameters + 0.2 * assumptions +
0.1 * constraints`; category scores `(1,1,1,1)` give `1.0`, `(0,0,0,0)`
give `0.0`, and `(1,0,0,0)` give `0.4` (each exhibited at concrete
inputs realizing those category scores). -/
theorem overall_fidelity_weighted_sum :
    (∀ (sim : String → String → ℚ) (source_analysis : DocumentAnalysis)
        (source_text : String) (e p a c : List String),
      (verifySsdFidelityCore sim source_analysis source_text e p a c).overall_fidelity =
        0.4 * (verifySsdFidelityCore sim source_analysis source_text e p a c).equation_accuracy +
        0.3 * (verifySsdFidelityCore sim source_analysis source_text e p a c).parameter_completeness +
        0.2 * (verifySsdFidelityCore sim source_analysis source_text e p a c).assumption_completeness +
        0.1 * (verifySsdFidelityCore sim source_analysis source_text e p a c).constraint_accuracy) ∧
    (verifySsdFidelityCore (fun _ _ => 0) ⟨[], [], [], []⟩ "" [] [] [] []).overall_fidelity = 1 ∧
    (verifySsdFidelityCore (fun _ _ => 0) ⟨["e"], ["p"], ["s"], ["c"]⟩ ""
      ["x"] [] [] ["d"]).overall_fidelity = 0 ∧
    (verifySsdFidelityCore (fun _ _ => 0) ⟨[], ["p"], ["s"], ["c"]⟩ ""
      [] [] [] ["d"]).overall_fidelity = 0.4 := by
  refine ⟨?_, ?_, ?_, ?_⟩
  · intro sim source_analysis source_text e p a c
    simp only [verifySsdFidelityCore]
    ring
  · with_unfolding_all decide
  · with_unfolding_all decide
  · with_unfolding_all decide

theorem maxSimTo_append_singleton (sim : String → String → ℚ)
    (cands : List String) (e s : String) :
    maxSimTo sim (cands ++ [e]) s = max (maxSimTo sim cands s) (sim s e) := by
  unfold maxSimTo
  rw [List.foldl_append]
  rfl

theorem foldl_max_lt_of_lt {α : Type} (f : α → ℚ) (t : ℚ) (l : List α) :
    ∀ init : ℚ, init < t → (∀ x ∈ l, f x < t) →
      l.foldl (fun m x => max m (f x)) init < t := by
  induction l with
  | nil => intro init hinit _; simpa using hinit
  | cons a l ih =>
    intro init hinit h
    simp only [List.foldl_cons]
    exact ih _ (max_lt hinit (h a (List.mem_cons_self a l)))
      (fun x hx => h x (List.mem_cons_of_mem a hx))

theorem maxSimFrom_lt (sim : String → String → ℚ) (srcs : List String)
    (e : String) (t : ℚ) (h0 : (0:ℚ) < t) (h : ∀ s ∈ srcs, sim s e < t) :
    maxSimFrom sim srcs e < t :=
  foldl_max_lt_of_lt (fun s => sim s e) t srcs 0 h0 h

/-- Claim C6: appending one candidate equation whose similarity to every
source equation is below the `0.7` threshold never increases the equation
score and adds exactly one entry to the extra list. -/
theorem unrelated_equation_monotonic_penalty (sim : String → String → ℚ)
    (source_equations ssd_equations : List String) (e : String)
    (hsrc : source_equations ≠ []) (hssd : ssd_equations ≠ [])
    (hunrel : ∀ s ∈ source_equations, sim s e < 0.7) :
    (verify_equations sim source_equations (ssd_equations ++ [e])).1 ≤
      (verify_equations sim source_equations ssd_equations).1 ∧
    (verify_equations sim source_equations (ssd_equations ++ [e])).2.2.length =
      (verify_equations sim source_equations ssd_equations).2.2.length + 1 := by
  have h1 : source_equations.isEmpty = false := by
    simpa [List.isEmpty_iff] using hsrc
  have h2 : ssd_equations.isEmpty = false := by
    simpa [List.isEmpty_iff] using hssd
  have h3 : (ssd_equations ++ [e]).isEmpty = false := by
    simp [List.isEmpty_iff, hssd]
  -- the appended equation does not push any source equation over the threshold
  have hms : ∀ s ∈ source_equations,
      (decide (maxSimTo sim (ssd_equations ++ [e]) s > 0.7)) =
      (decide (maxSimTo sim ssd_equations s > 0.7)) := by
    intro s hs
    rw [maxSimTo_append_singleton, decide_eq_decide]
    constructor
    · intro hgt
      rcases lt_max_iff.mp hgt with hlt | hlt
      · exact hlt
      · exact absurd (hunrel s hs) (not_lt.mpr (le_of_lt hlt))
    · intro hlt
      exact lt_max_iff.mpr (Or.inl hlt)
  have hcount_src :
      source_equations.countP
        (fun s => decide (maxSimTo sim (ssd_equations ++ [e]) s > 0.7)) =
      source_equations.countP
        (fun s => decide (maxSimTo sim ssd_equations s > 0.7)) :=
    List.countP_congr (fun s hs => by rw [hms s hs])
  -- the appended equation itself does not match any source equation
  have he_lt : maxSimFrom sim source_equations e < 0.7 :=
    maxSimFrom_lt sim source_equations e 0.7 (by norm_num) hunrel
  have he_notmatch : (decide (maxSimFrom sim source_equations e > 0.7)) = false :=
    decide_eq_false (not_lt.mpr (le_of_lt he_lt))
  have hcount_ssd :
      (ssd_equations ++ [e]).countP
        (fun c => decide (maxSimFrom sim source_equations c > 0.7)) =
      ssd_equations.countP
        (fun c => decide (maxSimFrom sim source_equations c > 0.7)) := by
    rw [List.countP_append]
    simp [List.countP_cons, he_notmatch]
  have hfilter :
      (ssd_equations ++ [e]).filter
        (fun c => !(decide (maxSimFrom sim source_equations c > 0.7))) =
      ssd_equations.filter
        (fun c => !(decide (maxSimFrom sim source_equations c > 0.7))) ++ [e] := by
    rw [List.filter_append]
    simp [List.filter_cons, he_notmatch]
  have hlenpos : 0 < (ssd_equations.length : ℚ) := by
    exact_mod_cast List.length_pos.mpr hssd
  unfold verify_equations
  simp only [h1, h2, h3, Bool.false_and, Bool.and_self, if_false,
    Bool.false_eq_true, hcount_src, hcount_ssd, hfilter, List.length_append,
    List.length_map, List.filter_append, List.map_append]
  constructor
  · have hm0 : (0:ℚ) ≤ (ssd_equations.countP
        (fun c => decide (maxSimFrom sim source_equations c > 0.7)) : ℚ) := by
      positivity
    have hdiv : (ssd_equations.countP
          (fun c => decide (maxSimFrom sim source_equations c > 0.7)) : ℚ) /
          ((ssd_equations.length : ℚ) + 1) ≤
        (ssd_equations.countP
          (fun c => decide (maxSimFrom sim source_equations c > 0.7)) : ℚ) /
          (ssd_equations.length : ℚ) := by
      gcongr
      linarith
    push_cast
    gcongr
    linarith [hdiv]
  · simp

/-- Witness for C6 at a concrete input: one matching candidate equation
plus one unrelated candidate equation. -/
theorem unrelated_equation_monotonic_penalty_witness :
    (["x"] : List String) ≠ [] ∧ (["x"] : List String) ≠ [] ∧
    (∀ s ∈ (["x"] : List String),
      (fun a b => if a == b then (1:ℚ) else 0) s "zz" < 0.7) ∧
    ((verify_equations (fun a b => if a == b then (1:ℚ) else 0) ["x"] (["x"] ++ ["zz"])).1 ≤
      (verify_equations (fun a b => if a == b then (1:ℚ) else 0) ["x"] ["x"]).1 ∧
    (verify_equations (fun a b => if a == b then (1:ℚ) else 0) ["x"] (["x"] ++ ["zz"])).2.2.length =
      (verify_equations (fun a b => if a == b then (1:ℚ) else 0) ["x"] ["x"]).2.2.length + 1) :=
  ⟨by decide, by decide, by with_unfolding_all decide,
    unrelated_equation_monotonic_penalty (fun a b => if a == b then (1:ℚ) else 0)
      ["x"] ["x"] "zz" (by decide) (by decide) (by with_unfolding_all decide)⟩
